import Mathlib

/-!
Shallow embedding of the version-resolution and caching core of the
node-env repository, together with theorems checking the specification
claims against it.

The embedding covers:
* the pure version matcher of `src/services/projectDetector.ts`
  (`isVersionMatch`, `parseVersion`, `compareVersions`,
  `matchSemverRange`, `isPartialVersionMatch`);
* the config resolver of the config reader service
  (`getProjectNodeVersion`, `normalizeVersion`, the per-file readers);
* the TTL cache of `src/utils/cacheManager.ts` (`get`, `set`, `cached`);
* the manager detector of `src/services/environmentDetector.ts`
  (`detectAllManagers`, `detectNVM`, `detectN`).

JavaScript-specific behaviour is modelled explicitly: a JS number that
may be NaN is `Option Int` (`none` = NaN), a JS value that may be
`null` is `Option V` (`none` = null), `parseInt`, string truthiness,
`||`-defaulting and string relational comparison are given their own
definitions below.  String operations are re-implemented structurally
on `List Char` so that every definition reduces in the kernel.
-/

namespace NodeEnv

/-! ## JavaScript string primitives -/

/-- Whitespace recognised by JS `trim` / `parseInt` skipping (the ASCII
part, which is all that version files contain). -/
def isWsChar (c : Char) : Bool :=
  c = ' ' || c = '\t' || c = '\n' || c = '\r' || c = '\x0b' || c = '\x0c'

/-- JS `String.prototype.trim` (both ends). -/
def trimChars (s : String) : String :=
  String.mk (((s.data.dropWhile isWsChar).reverse.dropWhile isWsChar).reverse)

/-- Structural character-list version of `split(sep)`. -/
def splitCharsOn (sep : Char) : List Char → List Char → List String
  | [], acc => [String.mk acc.reverse]
  | c :: cs, acc =>
    if c = sep then String.mk acc.reverse :: splitCharsOn sep cs []
    else splitCharsOn sep cs (c :: acc)

/-- JS `s.split(sep)` for a one-character separator: `"".split "."` is
`[""]` and a trailing separator yields a trailing `""`. -/
def splitOnChar (sep : Char) (s : String) : List String :=
  splitCharsOn sep s.data []

/-- Structural prefix test on character lists. -/
def isPrefixChars : List Char → List Char → Bool
  | [], _ => true
  | _ :: _, [] => false
  | a :: as, b :: bs => a == b && isPrefixChars as bs

/-- JS `s.startsWith(pre)`. -/
def strStartsWith (s pre : String) : Bool :=
  isPrefixChars pre.data s.data

/-- Drop the first `n` characters (JS `slice(n)` on BMP strings). -/
def strDrop (s : String) (n : Nat) : String :=
  String.mk (s.data.drop n)

/-- Substring occurrence test on character lists (JS `includes`). -/
def subAt (needle : List Char) : List Char → Bool
  | [] => needle.isEmpty
  | c :: cs => isPrefixChars needle (c :: cs) || subAt needle cs

/-- JS `hay.includes(needle)`. -/
def containsSub (hay needle : String) : Bool :=
  subAt needle.data hay.data

/-- JS string `<` (code-unit lexicographic; identical to code points on
the ASCII strings handled here). -/
def charListLt : List Char → List Char → Bool
  | [], [] => false
  | [], _ :: _ => true
  | _ :: _, [] => false
  | a :: as, b :: bs =>
    if a < b then true else if b < a then false else charListLt as bs

/-- JS string `>=`, which is `!(a < b)`; used by the `~` range branch of
`matchSemverRange`, where the operands are the *string* fields of
`parseVersion`'s result. -/
def jsStrGe (a b : String) : Bool :=
  !(charListLt a.data b.data)

/-- JS `parseInt(s, 10)`: skip whitespace, optional sign, then a digit
prefix; `none` models NaN (no digit found). -/
def jsParseInt (s : String) : Option Int :=
  match (s.data.dropWhile isWsChar) with
  | '-' :: r =>
    if (r.takeWhile Char.isDigit).isEmpty then none
    else some (-(((r.takeWhile Char.isDigit).foldl
      (fun a c => a * 10 + (c.toNat - 48)) 0 : Nat) : Int))
  | '+' :: r =>
    if (r.takeWhile Char.isDigit).isEmpty then none
    else some (((r.takeWhile Char.isDigit).foldl
      (fun a c => a * 10 + (c.toNat - 48)) 0 : Nat) : Int)
  | r =>
    if (r.takeWhile Char.isDigit).isEmpty then none
    else some (((r.takeWhile Char.isDigit).foldl
      (fun a c => a * 10 + (c.toNat - 48)) 0 : Nat) : Int)

/-- JS `parts[i] || "0"`: the component defaults when absent *or* empty
(the empty string is falsy). -/
def jsOrDefault (o : Option String) (d : String) : String :=
  match o with
  | some s => if s = "" then d else s
  | none => d

/-! ## Version matcher (`projectDetector.ts`) -/

/-- JS `version.replace(/^v/, "")`: strip one leading lowercase `v`. -/
def stripV (s : String) : String :=
  if strStartsWith s "v" then strDrop s 1 else s

/-- Result of `parseVersion`: note the components stay *strings* in the
source; numeric interpretation happens only inside `compareVersions`. -/
structure ParsedVersion where
  major : String
  minor : String
  patch : String
deriving DecidableEq, Repr

/-- Embeds `parseVersion` of `projectDetector.ts`: strip `v`, split on
`"."`, take at most three components, default missing or empty ones to
`"0"`. -/
def parseVersion (version : String) : ParsedVersion :=
  { major := jsOrDefault (splitOnChar '.' (stripV version))[0]? "0"
    minor := jsOrDefault (splitOnChar '.' (stripV version))[1]? "0"
    patch := jsOrDefault (splitOnChar '.' (stripV version))[2]? "0" }

/-- JS `a !== b` on numbers that may be NaN (`none`): NaN is unequal to
everything, including itself. -/
def jsNeq (a b : Option Int) : Bool :=
  match a, b with
  | some x, some y => decide (x ≠ y)
  | _, _ => true

/-- JS subtraction on numbers that may be NaN. -/
def jsSub (a b : Option Int) : Option Int :=
  match a, b with
  | some x, some y => some (x - y)
  | _, _ => none

/-- Embeds `compareVersions`: `parseInt` each component and return the
first non-zero difference.  `none` models a NaN result, which arises as
soon as a compared component fails to parse. -/
def compareVersions (v1 v2 : ParsedVersion) : Option Int :=
  if jsNeq (jsParseInt v1.major) (jsParseInt v2.major) then
    jsSub (jsParseInt v1.major) (jsParseInt v2.major)
  else if jsNeq (jsParseInt v1.minor) (jsParseInt v2.minor) then
    jsSub (jsParseInt v1.minor) (jsParseInt v2.minor)
  else
    jsSub (jsParseInt v1.patch) (jsParseInt v2.patch)

/-- Embeds `hasComparisonOperator`: test for regex `^(>=|<=|>|<|=)`. -/
def hasComparisonOperator (version : String) : Bool :=
  strStartsWith version ">=" || strStartsWith version "<=" ||
  strStartsWith version ">" || strStartsWith version "<" ||
  strStartsWith version "="

/-- Split off the operator of regex `^(>=|<=|>|<|=)(.+)$` in alternation
order.  The remainder group `(.+)$` requires a non-empty rest without a
line terminator (no `/m` flag, `.` does not cross newlines). -/
def opSplit (required : String) : Option (String × String) :=
  if strStartsWith required ">=" then some (">=", strDrop required 2)
  else if strStartsWith required "<=" then some ("<=", strDrop required 2)
  else if strStartsWith required ">" then some (">", strDrop required 1)
  else if strStartsWith required "<" then some ("<", strDrop required 1)
  else if strStartsWith required "=" then some ("=", strDrop required 1)
  else none

/-- Operand group check for `(.+)$`. -/
def restOk (rest : String) : Bool :=
  rest ≠ "" && !(rest.data.contains '\n') && !(rest.data.contains '\r')

/-- Full regex match `required.match(/^(>=|<=|>|<|=)(.+)$/)`. -/
def matchOperator (required : String) : Option (String × String) :=
  match opSplit required with
  | some (op, rest) => if restOk rest then some (op, rest) else none
  | none => none

/-- Apply a comparison operator to a possibly-NaN comparison value: in
JS every relational test on NaN is false. -/
def applyOp (op : String) (comparison : Option Int) : Bool :=
  match comparison with
  | none => false
  | some c =>
    if op = ">=" then decide (c ≥ 0)
    else if op = "<=" then decide (c ≤ 0)
    else if op = ">" then decide (c > 0)
    else if op = "<" then decide (c < 0)
    else if op = "=" then decide (c = 0)
    else false

/-- Embeds `compareVersionWithOperator`. -/
def compareVersionWithOperator (current required : String) : Bool :=
  match matchOperator required with
  | none => false
  | some (op, targetVersion) =>
    applyOp op (compareVersions (parseVersion current) (parseVersion targetVersion))

/-- Embeds `matchSemverRange`.  Note the source's `~` branch compares
the `patch` fields with JS `>=` on *strings*. -/
def matchSemverRange (current range : String) : Bool :=
  if strStartsWith range "^" then
    (parseVersion current).major == (parseVersion (strDrop range 1)).major &&
    applyOp ">=" (compareVersions (parseVersion current) (parseVersion (strDrop range 1)))
  else if strStartsWith range "~" then
    (parseVersion current).major == (parseVersion (strDrop range 1)).major &&
    (parseVersion current).minor == (parseVersion (strDrop range 1)).minor &&
    jsStrGe (parseVersion current).patch (parseVersion (strDrop range 1)).patch
  else false

/-- Embeds `isPartialVersionMatch`: compare the first 1, 2 or 3
components of the parsed full version against the spec components
(string equality, with `|| "0"` defaulting). -/
def isPartialVersionMatch (fullVersion partialVersion : String) : Bool :=
  if (splitOnChar '.' partialVersion).length = 1 then
    (parseVersion fullVersion).major ==
      jsOrDefault (splitOnChar '.' partialVersion)[0]? "0"
  else if (splitOnChar '.' partialVersion).length = 2 then
    ((parseVersion fullVersion).major ==
      jsOrDefault (splitOnChar '.' partialVersion)[0]? "0") &&
    ((parseVersion fullVersion).minor ==
      jsOrDefault (splitOnChar '.' partialVersion)[1]? "0")
  else
    ((parseVersion fullVersion).major ==
      jsOrDefault (splitOnChar '.' partialVersion)[0]? "0") &&
    ((parseVersion fullVersion).minor ==
      jsOrDefault (splitOnChar '.' partialVersion)[1]? "0") &&
    ((parseVersion fullVersion).patch ==
      jsOrDefault (splitOnChar '.' partialVersion)[2]? "0")

/-- `MatchResult` of the data model: a match flag plus an optional
target version (`none` = `undefined`). -/
structure MatchResult where
  matched : Bool  -- source field name `matches`, a reserved word in Lean
  targetVersion : Option String
deriving DecidableEq, Repr

/-- Embeds the pure body of `isVersionMatch` (the producer inside the
`cacheManager.cached` wrapper): exact equality, then comparison
operators, then `^`/`~` ranges, then partial pins, else no match. -/
def matchVersion (current required : String) : MatchResult :=
  if stripV current == stripV required then
    { matched := true, targetVersion := some (stripV current) }
  else if hasComparisonOperator (stripV required) then
    { matched := compareVersionWithOperator (stripV current) (stripV required)
      targetVersion :=
        if compareVersionWithOperator (stripV current) (stripV required) then
          some (stripV current)
        else none }
  else if strStartsWith (stripV required) "^" || strStartsWith (stripV required) "~" then
    { matched := matchSemverRange (stripV current) (stripV required)
      targetVersion :=
        if matchSemverRange (stripV current) (stripV required) then
          some (stripV current)
        else none }
  else if (splitOnChar '.' (stripV required)).length < 3 then
    { matched := isPartialVersionMatch (stripV current) (stripV required)
      targetVersion := some (stripV required) }
  else
    { matched := false, targetVersion := none }

/-- Spec-side view of "the components of the current version": the three
fields of the code's `parseVersion` (the data model's `ParsedVersion`,
whose missing components default to `"0"`). -/
def versionComponents (v : String) : List String :=
  [(parseVersion v).major, (parseVersion v).minor, (parseVersion v).patch]

/-! ## Cache (`cacheManager.ts`)

The store maps `(namespace, key)` to an entry.  An entry's `value` is
`Option V`: `none` models a stored JS `null`, which `get` cannot
distinguish from absence. -/

/-- Cache entry: value, creation timestamp, TTL (milliseconds). -/
structure CacheEntry (V : Type) where
  value : Option V
  timestamp : Nat
  ttl : Nat
deriving DecidableEq, Repr

/-- The cache store, as an association list keyed by (namespace, key);
`storeSet` keeps keys unique so it behaves as the source's nested maps. -/
abbrev Store (V : Type) := List ((String × String) × CacheEntry V)

/-- The source's `defaultTTL` (5 minutes). -/
def defaultTTL : Nat := 5 * 60 * 1000

/-- JS `ttl || this.defaultTTL` in `set` (0 is falsy). -/
def effTtl (ttl : Option Nat) : Nat :=
  match ttl with
  | some t => if t = 0 then defaultTTL else t
  | none => defaultTTL

/-- Embeds `CacheManager.set`: store or overwrite unconditionally, with
`timestamp = Date.now()`. -/
def storeSet {V : Type} (st : Store V) (ns key : String) (e : CacheEntry V) :
    Store V :=
  ((ns, key), e) :: st.filter (fun p => !(p.1 == (ns, key)))

/-- Embeds `CacheManager.get`: absent entry gives `null`; an entry with
`now - timestamp > ttl` is deleted and gives `null`; otherwise the stored
value is returned (which is itself `null` for a stored null).  The
returned pair is (returned value, store after the call). -/
def cacheGet {V : Type} (st : Store V) (ns key : String) (now : Nat) :
    Option V × Store V :=
  match st.lookup (ns, key) with
  | none => (none, st)
  | some e =>
    if now - e.timestamp > e.ttl then
      (none, st.filter (fun p => !(p.1 == (ns, key))))
    else (e.value, st)

/-- Embeds `CacheManager.cached`: `get`, return on a non-null hit,
otherwise run the producer (modelled by its pre-determined outcome
`producer : Except E (Option V)`; a thrown error propagates and skips
`set`).  Result: (outcome, store after the call, whether the producer
ran).  `cacheGet` is pure, so projecting it twice equals the source's
single `this.get` call. -/
def cached {V E : Type} (st : Store V) (ns key : String)
    (producer : Except E (Option V)) (ttl : Option Nat) (now : Nat) :
    Except E (Option V) × Store V × Bool :=
  match (cacheGet st ns key now).1 with
  | some v => (Except.ok (some v), (cacheGet st ns key now).2, false)
  | none =>
    match producer with
    | Except.error err => (Except.error err, (cacheGet st ns key now).2, true)
    | Except.ok r =>
      (Except.ok r,
       storeSet (cacheGet st ns key now).2 ns key ⟨r, now, effTtl ttl⟩,
       true)

/-! ## Config resolver (config reader service)

The filesystem is abstracted to the raw contents the readers consume:
`none` = file absent (or, for `package.json`, unparsable). -/

/-- Parsed `package.json` fields consumed by `readPackageJson`:
the raw `engines.node` and `volta.node` values. -/
structure PkgJson where
  enginesNode : Option String
  voltaNode : Option String
deriving DecidableEq, Repr

/-- Result shape of `readPackageJson` (`{engines?, volta?}`). -/
structure PkgResult where
  engines : Option String
  volta : Option String
deriving DecidableEq, Repr

/-- JS truthiness of an optional string (undefined and `""` are falsy). -/
def jsTruthyOpt (o : Option String) : Bool :=
  match o with
  | some s => decide (s ≠ "")
  | none => false

/-- The abstract project directory: raw contents of the four
configuration sources. -/
structure ProjectFS where
  nvmrc : Option String
  nodeVersion : Option String
  toolVersions : Option String
  packageJson : Option PkgJson
deriving DecidableEq, Repr

/-- Embeds `readVersionFile` (used for `.nvmrc` and `.node-version`):
absent file gives null; content is trimmed; blank content gives null. -/
def readVersionFile (content : Option String) : Option String :=
  match content with
  | none => none
  | some c => if trimChars c = "" then none else some (trimChars c)

/-- Line scan of `readToolVersions`: first trimmed line starting with
`"nodejs "`; its remainder (`replace("nodejs ", "")` on a line that
starts with the token removes that 7-character prefix) is trimmed. -/
def toolVersionsLoop : List String → Option String
  | [] => none
  | line :: rest =>
    if strStartsWith (trimChars line) "nodejs " then
      some (trimChars (strDrop (trimChars line) 7))
    else toolVersionsLoop rest

/-- Embeds `readToolVersions`: split the file on newlines and scan. -/
def readToolVersions (content : Option String) : Option String :=
  match content with
  | none => none
  | some c => toolVersionsLoop (splitOnChar '\n' c)

/-- Embeds `readPackageJson`: keep only truthy `engines.node` /
`volta.node` fields; return null when neither survives. -/
def readPackageJson (pkg : Option PkgJson) : Option PkgResult :=
  match pkg with
  | none => none
  | some p =>
    if jsTruthyOpt p.enginesNode || jsTruthyOpt p.voltaNode then
      some { engines := if jsTruthyOpt p.enginesNode then p.enginesNode else none
             volta := if jsTruthyOpt p.voltaNode then p.voltaNode else none }
    else none

/-- The regex `/([0-9]+\.[0-9]+\.[0-9]+)/` anchored at the head of the
character list: greedy digit runs separated by literal dots. -/
def tripleAt (cs : List Char) : Option (List Char) :=
  if (cs.takeWhile Char.isDigit).isEmpty then none
  else
    match cs.drop (cs.takeWhile Char.isDigit).length with
    | '.' :: r1 =>
      if (r1.takeWhile Char.isDigit).isEmpty then none
      else
        match r1.drop (r1.takeWhile Char.isDigit).length with
        | '.' :: r2 =>
          if (r2.takeWhile Char.isDigit).isEmpty then none
          else some ((cs.takeWhile Char.isDigit) ++ '.' ::
                     (r1.takeWhile Char.isDigit) ++ '.' ::
                     (r2.takeWhile Char.isDigit))
        | _ => none
    | _ => none

/-- Leftmost match of `/([0-9]+\.[0-9]+\.[0-9]+)/`. -/
def findTriple : List Char → Option (List Char)
  | [] => none
  | c :: cs =>
    match tripleAt (c :: cs) with
    | some t => some t
    | none => findTriple cs

/-- Embeds `normalizeVersion` of the config reader: strip a leading
`v`; then, only when the string contains `">="`, `"^"` or `"~"` (the
source checks no other marker), collapse to the first embedded numeric
triple when one exists. -/
def normalizeVersion (version : String) : String :=
  if containsSub (stripV version) ">=" || containsSub (stripV version) "^" ||
     containsSub (stripV version) "~" then
    match findTriple (stripV version).data with
    | some t => String.mk t
    | none => stripV version
  else stripV version

/-- Loop of `getProjectNodeVersion` over the prioritized checks: the
first truthy (non-null, non-empty) version wins. -/
def firstTruthy : List (Option String × String) → Option (String × String)
  | [] => none
  | (some v, src) :: rest => if v = "" then firstTruthy rest else some (v, src)
  | (none, _) :: rest => firstTruthy rest

/-- `ProjectVersionConfig` of the data model. -/
structure VersionConfig where
  version : String
  source : String
deriving DecidableEq, Repr

/-- Embeds the resolution body of `getProjectNodeVersion`: try
`.nvmrc`, `.node-version`, `.tool-versions` in order, then
`package.json` volta before engines.  `readPackageJson` only stores
truthy strings, so `some v` in its result implies `v ≠ ""`, matching the
source's `if (packageConfig.volta)` / `if (packageConfig.engines)`. -/
def getProjectNodeVersion (pfs : ProjectFS) : Option VersionConfig :=
  match firstTruthy
      [(readVersionFile pfs.nvmrc, ".nvmrc"),
       (readVersionFile pfs.nodeVersion, ".node-version"),
       (readToolVersions pfs.toolVersions, ".tool-versions")] with
  | some (v, src) => some { version := normalizeVersion v, source := src }
  | none =>
    match readPackageJson pfs.packageJson with
    | some pkg =>
      match pkg.volta with
      | some v =>
        some { version := normalizeVersion v, source := "package.json (volta.node)" }
      | none =>
        match pkg.engines with
        | some v =>
          some { version := normalizeVersion v, source := "package.json (engines.node)" }
        | none => none
    | none => none

/-- Spec-side list of the five configuration sources in the documented
priority order, with each reader's raw (pre-normalization) value. -/
def specOrderedSources (pfs : ProjectFS) : List (Option String × String) :=
  [(readVersionFile pfs.nvmrc, ".nvmrc"),
   (readVersionFile pfs.nodeVersion, ".node-version"),
   (readToolVersions pfs.toolVersions, ".tool-versions"),
   ((readPackageJson pfs.packageJson).bind PkgResult.volta, "package.json (volta.node)"),
   ((readPackageJson pfs.packageJson).bind PkgResult.engines, "package.json (engines.node)")]

/-- Spec-side resolver: normalized value and source of the first source
yielding a non-empty version. -/
def resolveBySpec (pfs : ProjectFS) : Option VersionConfig :=
  (firstTruthy (specOrderedSources pfs)).map
    (fun q => { version := normalizeVersion q.1, source := q.2 })

/-! ## Manager detector (`environmentDetector.ts`)

The Unix probe path is modelled (the Windows branch has the same
catch-and-convert structure).  External effects are abstracted to the
outcomes the probes observe; an `Except.error msg` input models an
exception thrown inside the probe, caught by its `try/catch`. -/

/-- `ManagerDetectionResult` of the source. -/
structure ManagerDescriptor where
  type : String
  available : Bool
  version : Option String
  path : Option String
  error : Option String
deriving DecidableEq, Repr

/-- Outcome of a spawned command (`executeCommand`), already resolved
(`executeCommand` never rejects). -/
structure CmdResult where
  success : Bool
  stdout : String
  stderr : String
  exitCode : Int
deriving DecidableEq, Repr

/-- External observations of the NVM probe: direct `nvm --version`
invocation, the `source nvm.sh` fallback, and the platform's nvm dir. -/
structure NvmData where
  direct : CmdResult
  sourced : CmdResult
  nvmDir : String
deriving DecidableEq, Repr

/-- External observations of the N probe: `n --version` and `which n`. -/
structure NData where
  nCmd : CmdResult
  whichCmd : CmdResult
deriving DecidableEq, Repr

/-- Embeds the producer body of `detectNVM` (Unix branch): start from
`{type: "nvm", available: false}`; direct success, else sourced
fallback, else negative result; any exception is caught into
`error = message`. -/
def detectNVMProducer (env : Except String NvmData) : ManagerDescriptor :=
  match env with
  | Except.error msg =>
    { type := "nvm", available := false, version := none, path := none,
      error := some msg }
  | Except.ok d =>
    if d.direct.success then
      { type := "nvm", available := true, version := some (trimChars d.direct.stdout),
        path := some d.nvmDir, error := none }
    else if d.sourced.success then
      { type := "nvm", available := true, version := some (trimChars d.sourced.stdout),
        path := some d.nvmDir, error := none }
    else
      { type := "nvm", available := false, version := none, path := none,
        error := some "NVM not found or not properly configured" }

/-- Embeds the producer body of `detectN`. -/
def detectNProducer (env : Except String NData) : ManagerDescriptor :=
  match env with
  | Except.error msg =>
    { type := "n", available := false, version := none, path := none,
      error := some msg }
  | Except.ok d =>
    if d.nCmd.success then
      { type := "n", available := true, version := some (trimChars d.nCmd.stdout),
        path := if d.whichCmd.success then some (trimChars d.whichCmd.stdout) else none,
        error := none }
    else
      { type := "n", available := false, version := none, path := none,
        error := some "N version manager not found" }

/-- The detector's `cacheExpiry` (5 minutes). -/
def cacheExpiry : Nat := 5 * 60 * 1000

/-- Embeds `detectNVM`: the producer wrapped in
`cacheManager.cached(MANAGER_DETECTION, "nvm_unix", ..., cacheExpiry)`
(here with `cached`'s hit/miss structure inlined, the producer never
throws).  Returns (descriptor, per-tool store after, producer ran). -/
def detectNVM (st : Store ManagerDescriptor) (env : Except String NvmData)
    (now : Nat) : ManagerDescriptor × Store ManagerDescriptor × Bool :=
  match (cacheGet st "manager_detection" "nvm_unix" now).1 with
  | some v => (v, (cacheGet st "manager_detection" "nvm_unix" now).2, false)
  | none =>
    (detectNVMProducer env,
     storeSet (cacheGet st "manager_detection" "nvm_unix" now).2
       "manager_detection" "nvm_unix"
       ⟨some (detectNVMProducer env), now, cacheExpiry⟩,
     true)

/-- Embeds `detectN` (cache key `"n_manager"`). -/
def detectN (st : Store ManagerDescriptor) (env : Except String NData)
    (now : Nat) : ManagerDescriptor × Store ManagerDescriptor × Bool :=
  match (cacheGet st "manager_detection" "n_manager" now).1 with
  | some v => (v, (cacheGet st "manager_detection" "n_manager" now).2, false)
  | none =>
    (detectNProducer env,
     storeSet (cacheGet st "manager_detection" "n_manager" now).2
       "manager_detection" "n_manager"
       ⟨some (detectNProducer env), now, cacheExpiry⟩,
     true)

/-- The two cache namespaces the detector touches, by value type. -/
structure DetectState where
  envStore : Store (List ManagerDescriptor)
  mgrStore : Store ManagerDescriptor
deriving DecidableEq, Repr

/-- Outcome of one `detectAllManagers` run, with observability flags:
whether each real probe (producer) executed, and whether `detectN` was
invoked at all. -/
structure DetectOutcome where
  results : List ManagerDescriptor
  state : DetectState
  nvmProbeRan : Bool
  nProbeRan : Bool
  nDetectInvoked : Bool
deriving DecidableEq, Repr

/-- Embeds `detectAllManagers`: return the cached aggregate when
present (a cached array is always truthy); otherwise probe NVM first,
short-circuit when it is available, else probe N; cache the aggregate
under `cacheExpiry` in both exits. -/
def detectAllManagers (s : DetectState) (nvmEnv : Except String NvmData)
    (nEnv : Except String NData) (now : Nat) : DetectOutcome :=
  match (cacheGet s.envStore "env_detection" "all_managers" now).1 with
  | some rs =>
    { results := rs
      state := { envStore := (cacheGet s.envStore "env_detection" "all_managers" now).2
                 mgrStore := s.mgrStore }
      nvmProbeRan := false, nProbeRan := false, nDetectInvoked := false }
  | none =>
    if (detectNVM s.mgrStore nvmEnv now).1.available then
      { results := [(detectNVM s.mgrStore nvmEnv now).1]
        state :=
          { envStore :=
              storeSet (cacheGet s.envStore "env_detection" "all_managers" now).2
                "env_detection" "all_managers"
                ⟨some [(detectNVM s.mgrStore nvmEnv now).1], now, cacheExpiry⟩
            mgrStore := (detectNVM s.mgrStore nvmEnv now).2.1 }
        nvmProbeRan := (detectNVM s.mgrStore nvmEnv now).2.2
        nProbeRan := false, nDetectInvoked := false }
    else
      { results :=
          [(detectNVM s.mgrStore nvmEnv now).1,
           (detectN (detectNVM s.mgrStore nvmEnv now).2.1 nEnv now).1]
        state :=
          { envStore :=
              storeSet (cacheGet s.envStore "env_detection" "all_managers" now).2
                "env_detection" "all_managers"
                ⟨some [(detectNVM s.mgrStore nvmEnv now).1,
                       (detectN (detectNVM s.mgrStore nvmEnv now).2.1 nEnv now).1],
                 now, cacheExpiry⟩
            mgrStore := (detectN (detectNVM s.mgrStore nvmEnv now).2.1 nEnv now).2.1 }
        nvmProbeRan := (detectNVM s.mgrStore nvmEnv now).2.2
        nProbeRan := (detectN (detectNVM s.mgrStore nvmEnv now).2.1 nEnv now).2.2
        nDetectInvoked := true }

/-! ## Sanity checks: the spec's §8 test vectors for the matcher -/

example : matchVersion "18.17.0" "18.17.0" = ⟨true, some "18.17.0"⟩ := by decide
example : matchVersion "v18.17.0" "18.17.0" = ⟨true, some "18.17.0"⟩ := by decide
example : (matchVersion "18.17.0" ">=18.0.0").matched = true := by decide
example : (matchVersion "16.0.0" ">=18.0.0").matched = false := by decide
example : (matchVersion "18.18.0" "^18.17.0").matched = true := by decide
example : (matchVersion "19.0.0" "^18.17.0").matched = false := by decide
example : (matchVersion "18.17.5" "~18.17.0").matched = true := by decide
example : (matchVersion "18.18.0" "~18.17.0").matched = false := by decide

/-! ## Helper lemmas -/

/-- Strings with no leading `v` are fixed points of `stripV`. -/
theorem stripV_of_not_v (s : String) (hv : strStartsWith s "v" = false) :
    stripV s = s := by
  unfold stripV
  rw [hv]
  simp

/-- One-component split: `parseVersion` defaults the other components. -/
theorem parseVersion_of_split_one (s a : String)
    (hv : strStartsWith s "v" = false) (ha : splitOnChar '.' s = [a]) :
    parseVersion s = ⟨if a = "" then "0" else a, "0", "0"⟩ := by
  unfold parseVersion
  rw [stripV_of_not_v s hv, ha]
  simp [jsOrDefault]

/-- Two-component split: the patch defaults. -/
theorem parseVersion_of_split_two (s a b : String)
    (hv : strStartsWith s "v" = false) (hab : splitOnChar '.' s = [a, b]) :
    parseVersion s = ⟨if a = "" then "0" else a, if b = "" then "0" else b, "0"⟩ := by
  unfold parseVersion
  rw [stripV_of_not_v s hv, hab]
  simp [jsOrDefault]

/-- On a one-component spec with a non-empty component, the partial
match test is exactly componentwise equality with the first parsed
component of the full version. -/
theorem isPartial_take_one (nc nr a : String)
    (ha : splitOnChar '.' nr = [a]) (hane : a ≠ "") :
    (isPartialVersionMatch nc nr = true ↔
      splitOnChar '.' nr = (versionComponents nc).take 1) := by
  simp only [isPartialVersionMatch, ha, versionComponents,
    List.take_succ_cons, List.take_zero, List.length_cons, List.length_nil]
  simp [jsOrDefault, hane]
  exact eq_comm

/-- Two-component analogue of `isPartial_take_one`. -/
theorem isPartial_take_two (nc nr a b : String)
    (hab : splitOnChar '.' nr = [a, b]) (hane : a ≠ "") (hbne : b ≠ "") :
    (isPartialVersionMatch nc nr = true ↔
      splitOnChar '.' nr = (versionComponents nc).take 2) := by
  simp only [isPartialVersionMatch, hab, versionComponents,
    List.take_succ_cons, List.take_zero, List.length_cons, List.length_nil]
  simp [jsOrDefault, hane, hbne]
  constructor
  · rintro ⟨h1, h2⟩
    exact ⟨h1.symm, h2.symm⟩
  · rintro ⟨h1, h2⟩
    exact ⟨h1.symm, h2.symm⟩

/-! ## Claim theorems: version matcher -/

/-- C1.  For a partial pin (a spec that, after stripping a leading `v`,
has one or two dot-separated non-empty components and starts with no
comparison operator, `^`, `~` or `v`), `matchVersion` matches exactly
when every given spec component equals the corresponding component of
the current version's `parseVersion` triple, and the target version is
the normalized spec itself, never the current version. -/
theorem partial_pin_semantics (current required : String)
    (hop : hasComparisonOperator (stripV required) = false)
    (hc : strStartsWith (stripV required) "^" = false)
    (ht : strStartsWith (stripV required) "~" = false)
    (hv : strStartsWith (stripV required) "v" = false)
    (hlen : (splitOnChar '.' (stripV required)).length = 1 ∨
            (splitOnChar '.' (stripV required)).length = 2)
    (hne : ∀ c ∈ splitOnChar '.' (stripV required), c ≠ "") :
    (matchVersion current required).targetVersion = some (stripV required) ∧
    ((matchVersion current required).matched = true ↔
      splitOnChar '.' (stripV required) =
        (versionComponents (stripV current)).take
          (splitOnChar '.' (stripV required)).length) := by
  by_cases heq : stripV current = stripV required
  · have hm : matchVersion current required =
        { matched := true, targetVersion := some (stripV required) } := by
      simp [matchVersion, heq]
    rw [hm]
    refine ⟨rfl, iff_of_true rfl ?_⟩
    rw [heq]
    rcases hlen with h1 | h1
    · obtain ⟨a, ha⟩ := List.length_eq_one.mp h1
      have hane : a ≠ "" := hne a (by simp [ha])
      have hpv := parseVersion_of_split_one (stripV required) a hv ha
      rw [ha]
      simp [versionComponents, hpv, hane]
    · obtain ⟨a, b, hab⟩ := List.length_eq_two.mp h1
      have hane : a ≠ "" := hne a (by simp [hab])
      have hbne : b ≠ "" := hne b (by simp [hab])
      have hpv := parseVersion_of_split_two (stripV required) a b hv hab
      rw [hab]
      simp [versionComponents, hpv, hane, hbne]
  · have hlt : (splitOnChar '.' (stripV required)).length < 3 := by
      rcases hlen with h1 | h1 <;> omega
    have hm : matchVersion current required =
        { matched := isPartialVersionMatch (stripV current) (stripV required),
          targetVersion := some (stripV required) } := by
      simp [matchVersion, heq, hop, hc, ht, hlt]
    rw [hm]
    refine ⟨rfl, ?_⟩
    rcases hlen with h1 | h1
    · obtain ⟨a, ha⟩ := List.length_eq_one.mp h1
      have hane : a ≠ "" := hne a (by simp [ha])
      have hiff := isPartial_take_one (stripV current) (stripV required) a ha hane
      rw [ha] at hiff ⊢
      simpa using hiff
    · obtain ⟨a, b, hab⟩ := List.length_eq_two.mp h1
      have hane : a ≠ "" := hne a (by simp [hab])
      have hbne : b ≠ "" := hne b (by simp [hab])
      have hiff := isPartial_take_two (stripV current) (stripV required) a b hab hane hbne
      rw [hab] at hiff ⊢
      simpa using hiff

/-- Witness for C1: the spec's concrete examples
`MatchVersion("18.2.1","18")` and `MatchVersion("18.2.1","18.3")`. -/
theorem partial_pin_semantics_witness :
    (matchVersion "18.2.1" "18").matched = true ∧
    (matchVersion "18.2.1" "18").targetVersion = some "18" ∧
    (matchVersion "18.2.1" "18.3").matched = false := by
  have h := partial_pin_semantics "18.2.1" "18" (by decide) (by decide)
    (by decide) (by decide) (Or.inl (by decide)) (by decide)
  exact ⟨h.2.mpr (by decide), h.1, by decide⟩

/-- C9.  Whenever the spec (after stripping a leading `v`) reaches the
partial-pin branch — no comparison operator, no `^`/`~`, fewer than 3
dot components — the target version is the normalized spec, whether or
not the match succeeds. -/
theorem partial_spec_target_preserved (current required : String)
    (hop : hasComparisonOperator (stripV required) = false)
    (hc : strStartsWith (stripV required) "^" = false)
    (ht : strStartsWith (stripV required) "~" = false)
    (hlen : (splitOnChar '.' (stripV required)).length < 3) :
    (matchVersion current required).targetVersion = some (stripV required) := by
  by_cases heq : stripV current = stripV required
  · simp [matchVersion, heq]
  · simp [matchVersion, heq, hop, hc, ht, hlen]

/-- Witness for C9: `MatchVersion("18.2.1","18.3")` is a failed match
that still carries target `"18.3"`, and the alias token `"lts"` yields
`{matches:false, targetVersion:"lts"}`. -/
theorem partial_spec_target_preserved_witness :
    (matchVersion "18.2.1" "18.3").targetVersion = some "18.3" ∧
    (matchVersion "18.2.1" "18.3").matched = false ∧
    matchVersion "18.17.0" "lts" = { matched := false, targetVersion := some "lts" } := by
  have h := partial_spec_target_preserved "18.2.1" "18.3" (by decide) (by decide)
    (by decide) (by decide)
  exact ⟨h.trans (by decide), by decide, by decide⟩

/-- C7.  Evaluation of the code at the failing input for the `~` (patch
range) rule: the source compares the `patch` fields of `parseVersion`'s
result — which are strings — with JS `>=`, so `"10" >= "9"` is decided
lexicographically and is false.  `MatchVersion("18.17.10","~18.17.9")`
therefore reports no match, although 18.17.10 is a patch-level update
of 18.17.9 (numerically 10 ≥ 9), contradicting the claim and the
code's own comment; a single-digit patch such as
`MatchVersion("18.17.5","~18.17.0")` hides the bug. -/
theorem tilde_patch_string_comparison :
    matchVersion "18.17.10" "~18.17.9" = { matched := false, targetVersion := none } ∧
    jsStrGe "10" "9" = false ∧
    matchVersion "18.17.5" "~18.17.0" =
      { matched := true, targetVersion := some "18.17.5" } := by
  decide

/-- Counterexample for C6: a non-numeric component does NOT parse to 0.
`parseInt("x")` is NaN, so comparing `"18.x.1"` with itself under the
`=` operator yields NaN (here `none`) rather than the 0 that
parse-to-zero would give, and `MatchVersion("18.x.1","=18.x.1")`
reports no match although equal triples would match under `=`. -/
theorem nonnumeric_component_counterexample :
    compareVersions (parseVersion "18.x.1") (parseVersion "18.x.1") = none ∧
    matchVersion "18.x.1" "=18.x.1" = { matched := false, targetVersion := none } := by
  decide

/-- C6 (amended).  Parsing is total in the sense that it never throws:
split on `"."`, cap at 3 components, default missing components to
`"0"`.  But a fully non-numeric component parses to NaN (`none`), not
to 0: whenever all six compared components parse as integers the
comparison is a defined integer, while a NaN major component makes the
whole comparison NaN (and every operator test on NaN is false). -/
theorem version_parsing_totality :
    (∀ v1 v2 : ParsedVersion,
      (jsParseInt v1.major).isSome = true → (jsParseInt v1.minor).isSome = true →
      (jsParseInt v1.patch).isSome = true → (jsParseInt v2.major).isSome = true →
      (jsParseInt v2.minor).isSome = true → (jsParseInt v2.patch).isSome = true →
      (compareVersions v1 v2).isSome = true) ∧
    (∀ s a : String, strStartsWith s "v" = false → splitOnChar '.' s = [a] →
      parseVersion s = ⟨if a = "" then "0" else a, "0", "0"⟩) ∧
    (∀ s : String, jsParseInt s = none →
      ∀ w : ParsedVersion, compareVersions ⟨s, "0", "0"⟩ w = none) := by
  refine ⟨?_, parseVersion_of_split_one, ?_⟩
  · intro v1 v2 h1 h2 h3 h4 h5 h6
    obtain ⟨a, ha⟩ := Option.isSome_iff_exists.mp h1
    obtain ⟨b, hb⟩ := Option.isSome_iff_exists.mp h2
    obtain ⟨c, hc⟩ := Option.isSome_iff_exists.mp h3
    obtain ⟨d, hd⟩ := Option.isSome_iff_exists.mp h4
    obtain ⟨e, he⟩ := Option.isSome_iff_exists.mp h5
    obtain ⟨f, hf⟩ := Option.isSome_iff_exists.mp h6
    simp only [compareVersions, ha, hb, hc, hd, he, hf, jsNeq, jsSub]
    split_ifs <;> simp
  · intro s hnan w
    simp only [compareVersions, hnan, jsNeq, jsSub]
    simp

/-- Witness for C6 (amended): a numeric comparison is defined, a short
version string gets `"0"` defaults, and a non-numeric component
produces NaN. -/
theorem version_parsing_totality_witness :
    (compareVersions ⟨"18", "2", "1"⟩ ⟨"18", "3", "0"⟩).isSome = true ∧
    parseVersion "18" = ⟨"18", "0", "0"⟩ ∧
    compareVersions ⟨"beta", "0", "0"⟩ ⟨"1", "2", "3"⟩ = none := by
  refine ⟨version_parsing_totality.1 ⟨"18", "2", "1"⟩ ⟨"18", "3", "0"⟩
      (by decide) (by decide) (by decide) (by decide) (by decide) (by decide),
    ?_, version_parsing_totality.2.2 "beta" (by decide) ⟨"1", "2", "3"⟩⟩
  have h := version_parsing_totality.2.1 "18" "18" (by decide) (by decide)
  simpa using h

/-! ## Helper lemmas: config resolver -/

/-- Scanning concatenated check lists is scanning them in sequence. -/
theorem firstTruthy_append (l1 l2 : List (Option String × String)) :
    firstTruthy (l1 ++ l2) =
      match firstTruthy l1 with
      | some r => some r
      | none => firstTruthy l2 := by
  induction l1 with
  | nil => simp [firstTruthy]
  | cons hd tl ih =>
    rcases hd with ⟨o, src⟩
    rcases o with _ | v
    · simpa [firstTruthy] using ih
    · by_cases hv : v = "" <;> simp [firstTruthy, hv, ih]

/-- `readPackageJson` only stores truthy (non-empty) field values. -/
theorem readPackageJson_truthy (p : Option PkgJson) (pkg : PkgResult)
    (h : readPackageJson p = some pkg) :
    (∀ v, pkg.volta = some v → v ≠ "") ∧ (∀ v, pkg.engines = some v → v ≠ "") := by
  rcases p with _ | q
  · simp [readPackageJson] at h
  · simp only [readPackageJson] at h
    split at h
    · injection h with h2
      subst h2
      constructor
      · intro v hv2
        by_cases hb : jsTruthyOpt q.voltaNode = true
        · simp only [hb, if_true] at hv2
          rw [hv2] at hb
          simpa [jsTruthyOpt] using hb
        · simp [hb] at hv2
      · intro v hv2
        by_cases hb : jsTruthyOpt q.enginesNode = true
        · simp only [hb, if_true] at hv2
          rw [hv2] at hb
          simpa [jsTruthyOpt] using hb
        · simp [hb] at hv2
    · exact absurd h (by simp)

/-- The resolution body equals the spec-side five-source scan. -/
theorem getProjectNodeVersion_eq_resolveBySpec (pfs : ProjectFS) :
    getProjectNodeVersion pfs = resolveBySpec pfs := by
  unfold getProjectNodeVersion resolveBySpec specOrderedSources
  rw [show
    ([(readVersionFile pfs.nvmrc, ".nvmrc"),
      (readVersionFile pfs.nodeVersion, ".node-version"),
      (readToolVersions pfs.toolVersions, ".tool-versions"),
      ((readPackageJson pfs.packageJson).bind PkgResult.volta, "package.json (volta.node)"),
      ((readPackageJson pfs.packageJson).bind PkgResult.engines, "package.json (engines.node)")] :
      List (Option String × String)) =
    [(readVersionFile pfs.nvmrc, ".nvmrc"),
     (readVersionFile pfs.nodeVersion, ".node-version"),
     (readToolVersions pfs.toolVersions, ".tool-versions")] ++
    [((readPackageJson pfs.packageJson).bind PkgResult.volta, "package.json (volta.node)"),
     ((readPackageJson pfs.packageJson).bind PkgResult.engines, "package.json (engines.node)")]
    from rfl]
  rw [firstTruthy_append]
  cases hft : firstTruthy
      [(readVersionFile pfs.nvmrc, ".nvmrc"),
       (readVersionFile pfs.nodeVersion, ".node-version"),
       (readToolVersions pfs.toolVersions, ".tool-versions")] with
  | some r => rcases r with ⟨v, src⟩; simp
  | none =>
    cases hpk : readPackageJson pfs.packageJson with
    | none => simp [Option.bind, firstTruthy]
    | some pkg =>
      have htr := readPackageJson_truthy pfs.packageJson pkg hpk
      cases hvv : pkg.volta with
      | some v =>
        have hvne := htr.1 v hvv
        simp [Option.bind, hvv, firstTruthy, hvne]
      | none =>
        cases hee : pkg.engines with
        | some v =>
          have hene := htr.2 v hee
          simp [Option.bind, hvv, hee, firstTruthy, hene]
        | none => simp [Option.bind, hvv, hee, firstTruthy]

/-! ## Claim theorems: config resolver -/

/-- C3.  `getProjectNodeVersion` checks the sources in the fixed total
order `.nvmrc` > `.node-version` > `.tool-versions` > `package.json`
volta.node > `package.json` engines.node and returns the normalized
version and source name of the first source with a non-empty version,
ignoring all lower-priority sources; in particular an `.nvmrc` pin of
`"16"` wins over a manifest engines range `">=18"`. -/
theorem config_priority_resolution :
    (∀ pfs : ProjectFS, getProjectNodeVersion pfs = resolveBySpec pfs) ∧
    getProjectNodeVersion
        { nvmrc := some "16", nodeVersion := none, toolVersions := none,
          packageJson := some { enginesNode := some ">=18", voltaNode := none } } =
      some { version := "16", source := ".nvmrc" } :=
  ⟨getProjectNodeVersion_eq_resolveBySpec, by decide⟩

/-- Counterexample for C5: the source's `normalizeVersion` looks only
for the markers `">="`, `"^"`, `"~"`.  The spec `"<=18.2.3"` contains
the claimed marker `"<="` and a parseable triple, yet
`getProjectNodeVersion` returns it uncollapsed. -/
theorem normalize_marker_set_counterexample :
    getProjectNodeVersion
        { nvmrc := some "<=18.2.3", nodeVersion := none, toolVersions := none,
          packageJson := none } =
      some { version := "<=18.2.3", source := ".nvmrc" } ∧
    containsSub "<=18.2.3" "<=" = true ∧
    findTriple "<=18.2.3".data = some "18.2.3".data ∧
    "<=18.2.3" ≠ "18.2.3" := by
  decide

/-- C5 (amended).  Every version returned by `getProjectNodeVersion` is
the `normalizeVersion` image of the first raw source value; a leading
`v` is stripped; and the collapse-to-triple step triggers exactly when
the string contains one of the markers `">="`, `"^"`, `"~"` (not the
full claimed set {>=, <=, >, <, =, ^, ~}) and an embedded numeric
triple exists. -/
theorem normalization_behaviour :
    (∀ pfs : ProjectFS, (getProjectNodeVersion pfs).map VersionConfig.version =
       (firstTruthy (specOrderedSources pfs)).map (fun q => normalizeVersion q.1)) ∧
    (∀ (s : String) (t : List Char),
       (containsSub (stripV s) ">=" || containsSub (stripV s) "^" ||
        containsSub (stripV s) "~") = true →
       findTriple (stripV s).data = some t → normalizeVersion s = String.mk t) ∧
    (∀ s : String,
       (containsSub (stripV s) ">=" || containsSub (stripV s) "^" ||
        containsSub (stripV s) "~") = false → normalizeVersion s = stripV s) := by
  refine ⟨?_, ?_, ?_⟩
  · intro pfs
    rw [getProjectNodeVersion_eq_resolveBySpec]
    unfold resolveBySpec
    cases firstTruthy (specOrderedSources pfs) <;> simp
  · intro s t hmark htr
    unfold normalizeVersion
    rw [hmark, htr]
    simp
  · intro s hmark
    unfold normalizeVersion
    rw [hmark]
    simp

/-- Witness for C5 (amended): a `^` range collapses to its triple, a
leading `v` is stripped, and the resolver returns normalized values. -/
theorem normalization_behaviour_witness :
    (getProjectNodeVersion
        { nvmrc := some "v16", nodeVersion := none, toolVersions := none,
          packageJson := none }).map VersionConfig.version = some "16" ∧
    normalizeVersion "^18.17.0" = "18.17.0" ∧
    normalizeVersion "v16" = "16" := by
  refine ⟨?_, ?_, ?_⟩
  · exact (normalization_behaviour.1
      { nvmrc := some "v16", nodeVersion := none, toolVersions := none,
        packageJson := none }).trans (by decide)
  · exact (normalization_behaviour.2.1 "^18.17.0" "18.17.0".data
      (by decide) (by decide)).trans (by decide)
  · exact (normalization_behaviour.2.2 "v16" (by decide)).trans (by decide)

/-! ## Helper lemmas: cache -/

/-- Deleting a key removes it from lookup. -/
theorem lookup_filter_self {V : Type} (st : Store V) (k : String × String) :
    (st.filter (fun p => !(p.1 == k))).lookup k = none := by
  induction st with
  | nil => rfl
  | cons hd tl ih =>
    rcases hd with ⟨hk, he⟩
    by_cases h : hk = k
    · simpa [List.filter_cons, h] using ih
    · have hb : (hk == k) = false := by simp [h]
      have hb2 : (k == hk) = false := by simp [Ne.symm h]
      simp [List.filter_cons, hb, List.lookup, hb2, ih]

/-- Reading a key right after `set` finds the fresh entry; the result
depends only on its expiry at the read time. -/
theorem cacheGet_after_set {V : Type} (st : Store V) (ns key : String)
    (e : CacheEntry V) (now2 : Nat) :
    cacheGet (storeSet st ns key e) ns key now2 =
      if now2 - e.timestamp > e.ttl then
        (none, (storeSet st ns key e).filter (fun p => !(p.1 == (ns, key))))
      else (e.value, storeSet st ns key e) := by
  have hlk : (storeSet st ns key e).lookup (ns, key) = some e := by
    simp [storeSet, List.lookup]
  unfold cacheGet
  rw [hlk]

/-- Once `get` reports a miss for a key, every later `get` on the
resulting store misses too (the entry is absent, was deleted, or holds
a stored null), until a `set` intervenes. -/
theorem cacheGet_none_persist {V : Type} (st : Store V) (ns key : String)
    (now : Nat) (h : (cacheGet st ns key now).1 = none) :
    ∀ now2, (cacheGet (cacheGet st ns key now).2 ns key now2).1 = none := by
  intro now2
  rcases hl : st.lookup (ns, key) with _ | e
  · have h2 : (cacheGet st ns key now).2 = st := by
      unfold cacheGet
      rw [hl]
    rw [h2]
    unfold cacheGet
    rw [hl]
  · by_cases hexp : now - e.timestamp > e.ttl
    · have h2 : (cacheGet st ns key now).2 =
          st.filter (fun p => !(p.1 == (ns, key))) := by
        unfold cacheGet
        rw [hl]
        simp [hexp]
      rw [h2]
      unfold cacheGet
      rw [lookup_filter_self]
    · have hv : e.value = none := by
        have h3 := h
        unfold cacheGet at h3
        rw [hl] at h3
        simpa [hexp] using h3
      have h2 : (cacheGet st ns key now).2 = st := by
        unfold cacheGet
        rw [hl]
        simp [hexp]
      rw [h2]
      unfold cacheGet
      rw [hl]
      by_cases hexp2 : now2 - e.timestamp > e.ttl
      · simp [hexp2]
      · simp [hexp2, hv]

/-! ## Claim theorems: cache -/

/-- Counterexample for C4: an unexpired entry holding a stored JS null
(`value = none`) exists, yet `cached` still invokes the producer (ran
flag `true`), returns the producer's value instead of the stored one,
and overwrites the entry — because `get` cannot distinguish a stored
null from absence. -/
theorem cached_null_entry_counterexample :
    ([((("ns", "k") : String × String), (⟨none, 0, 1000⟩ : CacheEntry Nat))].lookup
        (("ns", "k") : String × String)).isSome = true ∧
    (0 : Nat) - 0 ≤ 1000 ∧
    cached [((("ns", "k") : String × String), (⟨none, 0, 1000⟩ : CacheEntry Nat))]
        "ns" "k" (Except.ok (some 5) : Except String (Option Nat)) none 0 =
      (Except.ok (some 5),
       [((("ns", "k") : String × String), ⟨some 5, 0, defaultTTL⟩)], true) :=
  ⟨rfl, by decide, rfl⟩

/-- C4 (amended).  Read-through semantics of `cached`: a non-null
unexpired hit is returned without running the producer; on a miss a
producer failure propagates unchanged, nothing is stored (any later
call still misses and runs its producer); a producer success is stored
under the effective TTL and is returned by `get` within that TTL. -/
theorem cached_read_through {V E : Type} (st : Store V) (ns key : String)
    (ttl : Option Nat) (now : Nat) :
    (∀ (v : V) (p : Except E (Option V)),
       (cacheGet st ns key now).1 = some v →
       cached st ns key p ttl now =
         (Except.ok (some v), (cacheGet st ns key now).2, false)) ∧
    (∀ err : E, (cacheGet st ns key now).1 = none →
       cached st ns key (Except.error err) ttl now =
         (Except.error err, (cacheGet st ns key now).2, true) ∧
       (∀ (p2 : Except E (Option V)) (ttl2 : Option Nat) (now2 : Nat),
          (cached (cacheGet st ns key now).2 ns key p2 ttl2 now2).2.2 = true)) ∧
    (∀ r : Option V, (cacheGet st ns key now).1 = none →
       cached st ns key (Except.ok r : Except E (Option V)) ttl now =
         ((Except.ok r : Except E (Option V)),
          storeSet (cacheGet st ns key now).2 ns key ⟨r, now, effTtl ttl⟩, true) ∧
       (∀ now2, now2 - now ≤ effTtl ttl →
          (cacheGet (storeSet (cacheGet st ns key now).2 ns key ⟨r, now, effTtl ttl⟩)
             ns key now2).1 = r)) := by
  refine ⟨?_, ?_, ?_⟩
  · intro v p h
    unfold cached
    rw [h]
  · intro err h
    refine ⟨by unfold cached; rw [h], ?_⟩
    intro p2 ttl2 now2
    unfold cached
    rw [cacheGet_none_persist st ns key now h now2]
    cases p2 <;> rfl
  · intro r h
    refine ⟨by unfold cached; rw [h], ?_⟩
    intro now2 hle
    rw [cacheGet_after_set]
    have hno : ¬ (now2 - (⟨r, now, effTtl ttl⟩ : CacheEntry V).timestamp >
        (⟨r, now, effTtl ttl⟩ : CacheEntry V).ttl) := by
      simpa using Nat.not_lt.mpr hle
    rw [if_neg hno]

/-- Witness for C4 (amended): a non-null hit returns the stored 3, a
failing producer propagates from an empty store, and a successful
producer stores its value. -/
theorem cached_read_through_witness :
    cached [((("ns", "k") : String × String), (⟨some 3, 0, 1000⟩ : CacheEntry Nat))]
        "ns" "k" (Except.error "boom" : Except String (Option Nat)) none 0 =
      (Except.ok (some 3),
       [((("ns", "k") : String × String), ⟨some 3, 0, 1000⟩)], false) ∧
    cached ([] : Store Nat) "ns" "k"
        (Except.error "boom" : Except String (Option Nat)) none 7 =
      (Except.error "boom", [], true) ∧
    cached ([] : Store Nat) "ns" "k"
        (Except.ok (some 9) : Except String (Option Nat)) (some 50) 7 =
      (Except.ok (some 9),
       [((("ns", "k") : String × String), ⟨some 9, 7, 50⟩)], true) := by
  have h1 := cached_read_through (E := String)
    [((("ns", "k") : String × String), (⟨some 3, 0, 1000⟩ : CacheEntry Nat))]
    "ns" "k" none 0
  have h2 := cached_read_through (E := String) ([] : Store Nat) "ns" "k" none 7
  have h3 := cached_read_through (E := String) ([] : Store Nat) "ns" "k" (some 50) 7
  exact ⟨h1.1 3 (Except.error "boom") rfl, (h2.2.1 "boom" rfl).1,
    (h3.2.2 (some 9) rfl).1⟩

/-- C10.  When the producer returns null, `cached` stores the null
entry, but every subsequent call — at any time, within the TTL or not —
still treats the entry as a miss and runs its producer again: stored
nulls get no effective negative caching. -/
theorem cached_null_never_hits {V E : Type} (st : Store V) (ns key : String)
    (ttl : Option Nat) (now : Nat)
    (hmiss : (cacheGet st ns key now).1 = none) :
    cached st ns key (Except.ok (none : Option V)) ttl now =
      ((Except.ok none : Except E (Option V)),
       storeSet (cacheGet st ns key now).2 ns key ⟨none, now, effTtl ttl⟩, true) ∧
    (storeSet (cacheGet st ns key now).2 ns key
        ⟨none, now, effTtl ttl⟩).lookup (ns, key) = some ⟨none, now, effTtl ttl⟩ ∧
    (∀ (p2 : Except E (Option V)) (ttl2 : Option Nat) (now2 : Nat),
       (cached (storeSet (cacheGet st ns key now).2 ns key ⟨none, now, effTtl ttl⟩)
          ns key p2 ttl2 now2).2.2 = true) := by
  have hlk : (storeSet (cacheGet st ns key now).2 ns key
      ⟨none, now, effTtl ttl⟩).lookup (ns, key) = some ⟨none, now, effTtl ttl⟩ := by
    simp [storeSet, List.lookup]
  refine ⟨by unfold cached; rw [hmiss], hlk, ?_⟩
  intro p2 ttl2 now2
  have hget : (cacheGet (storeSet (cacheGet st ns key now).2 ns key
      ⟨none, now, effTtl ttl⟩) ns key now2).1 = none := by
    rw [cacheGet_after_set]
    by_cases hexp : now2 - (⟨none, now, effTtl ttl⟩ : CacheEntry V).timestamp >
        (⟨none, now, effTtl ttl⟩ : CacheEntry V).ttl
    · rw [if_pos hexp]
    · rw [if_neg hexp]
  unfold cached
  rw [hget]
  cases p2 <;> rfl

/-- Witness for C10: from an empty store, a null-producing call stores
the null entry at time 5, and a second call at time 6 (well within the
1000 ms TTL) still runs its producer. -/
theorem cached_null_never_hits_witness :
    cached ([] : Store Nat) "ns" "k"
        (Except.ok none : Except String (Option Nat)) (some 1000) 5 =
      (Except.ok none,
       [((("ns", "k") : String × String), ⟨none, 5, 1000⟩)], true) ∧
    (cached [((("ns", "k") : String × String), (⟨none, 5, 1000⟩ : CacheEntry Nat))]
        "ns" "k" (Except.ok (some 7) : Except String (Option Nat))
        (some 1000) 6).2.2 = true := by
  have h := cached_null_never_hits (E := String) ([] : Store Nat) "ns" "k"
    (some 1000) 5 rfl
  exact ⟨h.1, h.2.2 (Except.ok (some 7)) (some 1000) 6⟩

/-! ## Claim theorems: manager detector -/

/-- C2.  With no cached aggregate, `detectAllManagers` probes NVM
first; if that probe reports available the result is exactly the single
NVM descriptor and `detectN` is never invoked (so the N probe cannot
run); if it reports unavailable, `detectN` runs and the result is
exactly the two descriptors in probe order. -/
theorem detect_short_circuit (s : DetectState) (nvmEnv : Except String NvmData)
    (nEnv : Except String NData) (now : Nat)
    (hmiss : (cacheGet s.envStore "env_detection" "all_managers" now).1 = none) :
    ((detectNVM s.mgrStore nvmEnv now).1.available = true →
       (detectAllManagers s nvmEnv nEnv now).results =
         [(detectNVM s.mgrStore nvmEnv now).1] ∧
       (detectAllManagers s nvmEnv nEnv now).nDetectInvoked = false ∧
       (detectAllManagers s nvmEnv nEnv now).nProbeRan = false) ∧
    ((detectNVM s.mgrStore nvmEnv now).1.available = false →
       (detectAllManagers s nvmEnv nEnv now).results =
         [(detectNVM s.mgrStore nvmEnv now).1,
          (detectN (detectNVM s.mgrStore nvmEnv now).2.1 nEnv now).1] ∧
       (detectAllManagers s nvmEnv nEnv now).nDetectInvoked = true) := by
  constructor
  · intro hav
    simp [detectAllManagers, hmiss, hav]
  · intro hav
    simp [detectAllManagers, hmiss, hav]

/-- Witness for C2: from cold caches with a successful direct
`nvm --version` probe, the run returns the single NVM descriptor and
never invokes `detectN`. -/
theorem detect_short_circuit_witness :
    (detectAllManagers { envStore := [], mgrStore := [] }
        (Except.ok { direct := { success := true, stdout := "0.39.7", stderr := "", exitCode := 0 }
                     sourced := { success := false, stdout := "", stderr := "", exitCode := 1 }
                     nvmDir := "/root/.nvm" })
        (Except.error "unused") 0).results =
      [{ type := "nvm", available := true, version := some "0.39.7",
         path := some "/root/.nvm", error := none }] ∧
    (detectAllManagers { envStore := [], mgrStore := [] }
        (Except.ok { direct := { success := true, stdout := "0.39.7", stderr := "", exitCode := 0 }
                     sourced := { success := false, stdout := "", stderr := "", exitCode := 1 }
                     nvmDir := "/root/.nvm" })
        (Except.error "unused") 0).nDetectInvoked = false := by
  have h := detect_short_circuit { envStore := [], mgrStore := [] }
    (Except.ok { direct := { success := true, stdout := "0.39.7", stderr := "", exitCode := 0 }
                 sourced := { success := false, stdout := "", stderr := "", exitCode := 1 }
                 nvmDir := "/root/.nvm" })
    (Except.error "unused") 0 rfl
  have h2 := h.1 (by decide)
  exact ⟨h2.1.trans (by decide), h2.2.1⟩

/-- C8.  Probe exceptions are caught and converted to negative
descriptors with `error = message` (both probes; the producers are
total, so nothing re-throws), and an unavailable probe result is cached
under the same TTL as a successful one: starting from cold caches,
whatever each probe observes, a second `detectAllManagers` within
`cacheExpiry` runs no real probe and returns the first run's
descriptors — each real probe ran exactly once. -/
theorem probe_error_negative_caching :
    (∀ msg : String,
       detectNVMProducer (Except.error msg) =
         { type := "nvm", available := false, version := none, path := none,
           error := some msg } ∧
       detectNProducer (Except.error msg) =
         { type := "n", available := false, version := none, path := none,
           error := some msg }) ∧
    (∀ (nvmEnv : Except String NvmData) (nEnv : Except String NData)
       (nvmEnv2 : Except String NvmData) (nEnv2 : Except String NData)
       (now now2 : Nat), now2 - now ≤ cacheExpiry →
       (detectAllManagers { envStore := [], mgrStore := [] } nvmEnv nEnv now).nvmProbeRan
         = true ∧
       ((detectAllManagers { envStore := [], mgrStore := [] } nvmEnv nEnv now).state.mgrStore.lookup
           (("manager_detection", "nvm_unix") : String × String)) =
         some ⟨some (detectNVMProducer nvmEnv), now, cacheExpiry⟩ ∧
       (detectAllManagers
           (detectAllManagers { envStore := [], mgrStore := [] } nvmEnv nEnv now).state
           nvmEnv2 nEnv2 now2).nvmProbeRan = false ∧
       (detectAllManagers
           (detectAllManagers { envStore := [], mgrStore := [] } nvmEnv nEnv now).state
           nvmEnv2 nEnv2 now2).nProbeRan = false ∧
       (detectAllManagers
           (detectAllManagers { envStore := [], mgrStore := [] } nvmEnv nEnv now).state
           nvmEnv2 nEnv2 now2).results =
         (detectAllManagers { envStore := [], mgrStore := [] } nvmEnv nEnv now).results) := by
  constructor
  · intro msg
    exact ⟨rfl, rfl⟩
  · intro nvmEnv nEnv nvmEnv2 nEnv2 now now2 hle
    have hno : ¬ (now2 - now > cacheExpiry) := by omega
    have hk1 : ((("manager_detection", "n_manager") : String × String) ==
        (("manager_detection", "nvm_unix") : String × String)) = false := rfl
    have hk2 : ((("manager_detection", "nvm_unix") : String × String) ==
        (("manager_detection", "n_manager") : String × String)) = false := rfl
    by_cases hav : (detectNVMProducer nvmEnv).available
    · refine ⟨?_, ?_, ?_, ?_, ?_⟩ <;>
        simp [detectAllManagers, detectNVM, detectN, cacheGet, storeSet,
          List.lookup, List.filter, hav, hno, hk1, hk2]
    · refine ⟨?_, ?_, ?_, ?_, ?_⟩ <;>
        simp [detectAllManagers, detectNVM, detectN, cacheGet, storeSet,
          List.lookup, List.filter, hav, hno, hk1, hk2]

/-- Witness for C8: a thrown spawn error becomes a negative descriptor
carrying its message; after a cold run in which both probes fail, a
second run 1000 ms later (within the 5-minute TTL) runs neither real
probe. -/
theorem probe_error_negative_caching_witness :
    detectNVMProducer (Except.error "spawn nvm ENOENT") =
      { type := "nvm", available := false, version := none, path := none,
        error := some "spawn nvm ENOENT" } ∧
    (detectAllManagers { envStore := [], mgrStore := [] }
        (Except.error "spawn nvm ENOENT") (Except.error "n missing") 0).nvmProbeRan
      = true ∧
    (detectAllManagers
        (detectAllManagers { envStore := [], mgrStore := [] }
          (Except.error "spawn nvm ENOENT") (Except.error "n missing") 0).state
        (Except.error "x") (Except.error "y") 1000).nvmProbeRan = false ∧
    (detectAllManagers
        (detectAllManagers { envStore := [], mgrStore := [] }
          (Except.error "spawn nvm ENOENT") (Except.error "n missing") 0).state
        (Except.error "x") (Except.error "y") 1000).nProbeRan = false := by
  have h1 := probe_error_negative_caching.1 "spawn nvm ENOENT"
  have h2 := probe_error_negative_caching.2 (Except.error "spawn nvm ENOENT")
    (Except.error "n missing") (Except.error "x") (Except.error "y") 0 1000
    (by decide)
  exact ⟨h1.1, h2.1, h2.2.2.1, h2.2.2.2.1⟩

end NodeEnv
